import Mathlib

/-!
Verification of the Smart_Traffic_Signal repository.

The repository contains three Python programs:

* `ambulance_detection/detect_ambulance.py` — an intersection controller
  (`traffic_signal_cycle`) that scans four approaches (East, South, West,
  North) for an emergency vehicle, preempts the normal rotation with an
  emergency green phase, maintains a per-approach cooldown dictionary
  (`ambulance_cooldown`), and otherwise runs a fixed round-robin rotation
  of 10-second green phases.
* `vehicle_detection/light.py` — an adaptive controller
  (`TrafficLightSystem`) that counts vehicles per approach once, converts
  counts into green durations with `calculate_timer`, and then runs
  `max_cycles` rounds of a fixed rotation (North, East, South, West).
* `roadsafety_website/detection.py` — an accident-detection loop that
  initiates an emergency phone-call sequence the first time a frame's
  confidence exceeds 90.

Everything below is a shallow embedding of those functions: perception,
rendering and telephony are modelled as inputs/outputs (an `Option`
encodes a perception failure), and each loop of the Python source becomes
a structurally recursive Lean function over the same data.
-/

/-- The four approaches of the intersection. -/
inductive Dir where
  | East
  | South
  | West
  | North
deriving DecidableEq, Repr

/-- Rotation order of `traffic_signal_cycle`
(`directions = ['East', 'South', 'West', 'North']`, line 112). -/
def directions : List Dir := [Dir.East, Dir.South, Dir.West, Dir.North]

/-- `signal_duration = 10` (detect_ambulance.py line 113). -/
def signal_duration : Nat := 10

/-- `cooldown_duration = 30` (detect_ambulance.py line 114). -/
def cooldown_duration : Nat := 30

/-- The cooldown state: the `ambulance_cooldown` dictionary, one
natural number of remaining suppression cycles per approach. -/
def CooldownState : Type := Dir → Nat

/-- One pass of the cooldown-update loop (detect_ambulance.py lines
136-139): every entry with `ambulance_cooldown[direction] > 0` becomes
`max(0, ambulance_cooldown[direction] - 1)`; zero entries are untouched. -/
def tickCooldowns (cd : CooldownState) : CooldownState :=
  fun d => if cd d > 0 then max 0 (cd d - 1) else cd d

/-- Setting the cooldown after a detection
(`ambulance_cooldown[direction] = cooldown_duration`, line 159),
generalised over the length written. -/
def trigger (cd : CooldownState) (a : Dir) (L : Nat) : CooldownState :=
  fun d => if d = a then L else cd d

/-- The suppression test used by both loops
(`if ambulance_cooldown[direction] > 0: continue`, lines 146 and 197). -/
def is_suppressed (cd : CooldownState) (d : Dir) : Prop := cd d > 0

instance (cd : CooldownState) (d : Dir) : Decidable (is_suppressed cd d) :=
  inferInstanceAs (Decidable (cd d > 0))

/-- Signal colors drawn by `draw_traffic_light` / `draw_traffic_ui`. -/
inductive Color where
  | red
  | yellow
  | green
deriving DecidableEq, Repr

/-- What one approach's light shows during one rendered second:
its color, its status caption, and its countdown (when shown). -/
structure LightView where
  color : Color
  status : String
  timer : Option Nat
deriving DecidableEq, Repr

/-- `directions[(i + 1) % 4]`, the "next" approach used by both phase
renderers (detect_ambulance.py lines 170 and 212). -/
def nextDir (i : Nat) : Dir := directions.getD ((i + 1) % 4) Dir.East

/-- The per-approach display of one second of the emergency phase
(detect_ambulance.py lines 164-181): the ambulance approach is green
"EMERGENCY GREEN" with the countdown, the next approach in rotation is
red "NEXT" with the same countdown, every other approach is red "STOP"
with no countdown. -/
def emergencyLight (i : Nat) (remaining : Nat) (d : Dir) : LightView :=
  if d = directions.getD i Dir.East then
    ⟨Color.green, "EMERGENCY GREEN", some remaining⟩
  else if d = nextDir i then
    ⟨Color.red, "NEXT", some remaining⟩
  else
    ⟨Color.red, "STOP", none⟩

/-- The per-approach display of one second of a normal phase
(detect_ambulance.py lines 206-223): the active approach is green "GO",
the next approach is yellow "NEXT" with the same countdown, every other
approach is red "STOP" with no countdown. -/
def normalLight (i : Nat) (remaining : Nat) (d : Dir) : LightView :=
  if d = directions.getD i Dir.East then
    ⟨Color.green, "GO", some remaining⟩
  else if d = nextDir i then
    ⟨Color.yellow, "NEXT", some remaining⟩
  else
    ⟨Color.red, "STOP", none⟩

/-- The countdown values of `for remaining_time in range(signal_duration, -1, -1)`
(detect_ambulance.py lines 162 and 202): `D, D-1, ..., 1, 0`. -/
def emergencyCountdownList (D : Nat) : List Nat := (List.range (D + 1)).reverse

/-- The emergency phase of detect_ambulance.py: one rendered second per
countdown value, from `signal_duration` down to 0 inclusive. -/
def emergencyPhase (i : Nat) : List (Dir → LightView) :=
  (emergencyCountdownList signal_duration).map (fun r => emergencyLight i r)

/-- One normal green phase of detect_ambulance.py: one rendered second per
countdown value, from `signal_duration` down to 0 inclusive. -/
def normalPhase (i : Nat) : List (Dir → LightView) :=
  (emergencyCountdownList signal_duration).map (fun r => normalLight i r)

/-- The perception sweep of `traffic_signal_cycle` (lines 142-188), one
step per `(i, direction)` pair of `enumerate(zip(directions, images))`.
Perception is the external input `perc`: `none` models a failure for that
approach (unreadable image, i.e. `cv2.imread` returning `None`, or an
exception caught by the `except` clause — both `continue` to the next
approach); `some b` is the detection result of `process_image`.
An approach in cooldown is skipped before its image is read. On the first
detection the approach's cooldown is set to `cooldown_duration`, the
emergency phase is rendered, and the loop `break`s: the remaining pairs
are never examined. Returns the final cooldown state, the
`ambulance_detected` flag and the rendered seconds. -/
def sweepLoop (cd : CooldownState) (perc : Dir → Option Bool) :
    List (Nat × Dir) → CooldownState × Bool × List (Dir → LightView)
  | [] => (cd, false, [])
  | (i, d) :: rest =>
    if cd d > 0 then sweepLoop cd perc rest
    else
      match perc d with
      | none => sweepLoop cd perc rest
      | some false => sweepLoop cd perc rest
      | some true =>
          (trigger cd d cooldown_duration, true, emergencyPhase i)

/-- The normal rotation of `traffic_signal_cycle` (lines 195-226): one
full pass over the rotation order, skipping approaches in cooldown,
rendering an 11-second green phase for each remaining approach. -/
def normalLoop (cd : CooldownState) : List (Nat × Dir) → List (Dir → LightView)
  | [] => []
  | (i, d) :: rest =>
    if cd d > 0 then normalLoop cd rest
    else normalPhase i ++ normalLoop cd rest

/-- One iteration of the outer `while True` loop of `traffic_signal_cycle`
(lines 129-226): first the cooldown-update loop runs once, then the
perception sweep, then — only when no ambulance was detected — the normal
rotation. Returns the cooldown state carried into the next iteration and
the seconds rendered during this iteration. -/
def outerCycle (cd : CooldownState) (perc : Dir → Option Bool) :
    CooldownState × List (Dir → LightView) :=
  let cd1 := tickCooldowns cd
  let res := sweepLoop cd1 perc directions.enum
  if res.2.1 then (res.1, res.2.2)
  else (res.1, res.2.2 ++ normalLoop res.1 directions.enum)

/-- Configuration of `TrafficLightSystem` (light.py `TrafficConfig`),
restricted to the fields the scheduler reads. Defaults:
`min_green_time = 10`, `max_green_time = 30`, `cars_per_second = 5`,
`max_cycles = 5`. -/
structure TrafficConfig where
  min_green_time : Nat := 10
  max_green_time : Nat := 30
  cars_per_second : Nat := 5
  max_cycles : Nat := 5
deriving Repr

/-- `TrafficLightSystem.calculate_timer` (light.py lines 65-70):
`min(max(min_green_time, car_count * cars_per_second), max_green_time)`. -/
def calculate_timer (cfg : TrafficConfig) (car_count : Nat) : Nat :=
  min (max cfg.min_green_time (car_count * cfg.cars_per_second))
    cfg.max_green_time

/-- The count produced by `TrafficLightSystem.count_cars` (light.py lines
39-63) as a function of the perception outcome: on any failure (missing
file, unreadable image, model exception) the function returns 0; otherwise
it returns the number of detected vehicles. -/
def count_cars (sensed : Option Nat) : Nat :=
  match sensed with
  | none => 0
  | some n => n

/-- The countdown values of `for remaining_time in range(green_time, 0, -1)`
(light.py line 156): `D, D-1, ..., 1` — the value 0 is not rendered. -/
def adaptiveCountdown (green_time : Nat) : List Nat :=
  (List.range' 1 green_time).reverse

/-- Rotation order of `TrafficLightSystem.process_intersection`
(`order = ['North', 'East', 'South', 'West']`, light.py line 141). -/
def order : List Dir := [Dir.North, Dir.East, Dir.South, Dir.West]

/-- One phase of the adaptive rotation: the active approach, the
approach shown yellow next, and the phase's green duration. -/
structure PhaseRecord where
  active : Dir
  next_adjacent : Dir
  green_time : Nat
deriving DecidableEq, Repr

/-- The inner `for i in range(4)` loop of `process_intersection`
(light.py lines 146-165): the phase sequence of one cycle, with durations
looked up in the `timers` mapping. -/
def cycleSchedule (timers : Dir → Nat) : List PhaseRecord :=
  (List.range 4).map (fun i =>
    { active := order.getD i Dir.North
      next_adjacent := order.getD ((i + 1) % 4) Dir.North
      green_time := timers (order.getD i Dir.North) })

/-- The `timers` mapping built by the sensing loop of
`process_intersection` (light.py lines 134-138): for each approach,
`timers[direction] = calculate_timer(count_cars(image)[0])`. -/
def mkTimers (cfg : TrafficConfig) (counts : Dir → Option Nat) : Dir → Nat :=
  fun d => calculate_timer cfg (count_cars (counts d))

/-- `TrafficLightSystem.process_intersection` (light.py lines 128-165):
the per-approach vehicle counts are sensed once and converted into the
`timers` mapping before the cycle loop starts; then `max_cycles` cycles
are run, each reading the same mapping. The result lists, cycle by cycle,
the phases performed. -/
def process_intersection (cfg : TrafficConfig) (counts : Dir → Option Nat) :
    List (List PhaseRecord) :=
  (List.range cfg.max_cycles).map (fun _ => cycleSchedule (mkTimers cfg counts))

/-- `draw_traffic_ui` color assignment (light.py lines 94-102): active is
green, the adjacent next approach is yellow, everything else is red. -/
def draw_ui_color (active next_adjacent d : Dir) : Color :=
  if d = active then Color.green
  else if d = next_adjacent then Color.yellow
  else Color.red

/-- One frame step of the accident-detection loop of
roadsafety_website/detection.py (lines 98-121). The state is the
`accident_detected` flag paired with the number of emergency call
sequences initiated so far; `conf` is the frame's confidence percentage
(`prob[0][0] * 100`). When `conf > 90` and the flag is not yet set,
`handle_emergency_call()` runs once and the flag is set; otherwise the
state is unchanged. -/
def accidentStep (st : Bool × Nat) (conf : ℚ) : Bool × Nat :=
  if conf > 90 then
    if st.1 then st else (true, st.2 + 1)
  else st

/-- The whole accident-detection run over the video's frame confidences:
starts with `accident_detected = False` and zero calls made. -/
def runAccidentDetection (confs : List ℚ) : Bool × Nat :=
  confs.foldl accidentStep (false, 0)

/-! ### Helper lemmas -/

/-- A cooldown tick is truncated subtraction of 1, pointwise. -/
theorem tickCooldowns_apply (cd : CooldownState) (d : Dir) :
    tickCooldowns cd d = cd d - 1 := by
  unfold tickCooldowns
  by_cases h : cd d > 0
  · simp [h]
  · simp [h, Nat.eq_zero_of_not_pos h]

/-- Iterated cooldown ticks subtract the iteration count, pointwise. -/
theorem tickCooldowns_iterate (cd : CooldownState) (d : Dir) (k : Nat) :
    (tickCooldowns^[k] cd) d = cd d - k := by
  induction k generalizing cd with
  | zero => simp
  | succ n ih =>
      rw [Function.iterate_succ_apply, ih, tickCooldowns_apply]
      omega

/-! ### C3: cooldown trigger/tick semantics -/

/-- C3: `trigger(a, L)` sets the remaining cooldown of `a` to exactly `L`,
overwriting any previous value; afterwards `a` is suppressed for exactly
`L` ticks (after `k` ticks it is suppressed iff `k < L`) and unsuppressed
thereafter; and every tick decrements each positive entry by 1 with a
floor of 0 while leaving zero entries unchanged. -/
theorem cooldown_trigger_tick_spec (cd : CooldownState) (a : Dir) (L k : Nat) :
    trigger cd a L a = L ∧
    (is_suppressed (tickCooldowns^[k] (trigger cd a L)) a ↔ k < L) ∧
    (∀ g : CooldownState, ∀ d : Dir,
      (0 < g d → tickCooldowns g d = g d - 1) ∧
      (g d = 0 → tickCooldowns g d = g d)) := by
  refine ⟨by simp [trigger], ?_, ?_⟩
  · rw [is_suppressed, tickCooldowns_iterate]
    simp [trigger]
  · intro g d
    constructor
    · intro _
      exact tickCooldowns_apply g d
    · intro h0
      rw [tickCooldowns_apply, h0]

/-- Witness for C3 at concrete inputs: after `trigger(East, 5)` and two
ticks East is still suppressed, and a tick decrements a positive entry. -/
theorem cooldown_trigger_tick_spec_witness :
    is_suppressed (tickCooldowns^[2] (trigger (fun _ => 0) Dir.East 5)) Dir.East ∧
    tickCooldowns (fun _ => 7) Dir.West = 6 := by
  constructor
  · exact (cooldown_trigger_tick_spec (fun _ => 0) Dir.East 5 2).2.1.mpr (by decide)
  · have h := (cooldown_trigger_tick_spec (fun _ => 0) Dir.East 5 2).2.2
      (fun _ => 7) Dir.West
    exact h.1 (by decide)

/-! ### C4: adaptive duration policy -/

/-- The default configuration of light.py (`TrafficConfig()` defaults). -/
def defaultConfig : TrafficConfig := {}

/-- C4: `calculate_timer` is the clamp
`min(max(min_green_time, count * cars_per_second), max_green_time)`;
when `min_green_time ≤ max_green_time` a count of 0 yields exactly
`min_green_time`; the result is monotone in the count and never exceeds
`max_green_time`; and with the defaults (`cars_per_second = 5`,
`min = 10`, `max = 30`) counts 0, 12, 3 yield 10, 30, 15. -/
theorem calculate_timer_spec (cfg : TrafficConfig) (c c2 : Nat)
    (h : cfg.min_green_time ≤ cfg.max_green_time) :
    calculate_timer cfg c =
      min (max cfg.min_green_time (c * cfg.cars_per_second))
        cfg.max_green_time ∧
    calculate_timer cfg 0 = cfg.min_green_time ∧
    (c ≤ c2 → calculate_timer cfg c ≤ calculate_timer cfg c2) ∧
    calculate_timer cfg c ≤ cfg.max_green_time ∧
    calculate_timer defaultConfig 0 = 10 ∧
    calculate_timer defaultConfig 12 = 30 ∧
    calculate_timer defaultConfig 3 = 15 := by
  refine ⟨rfl, ?_, ?_, ?_, by decide, by decide, by decide⟩
  · simp [calculate_timer, h]
  · intro hle
    unfold calculate_timer
    have : c * cfg.cars_per_second ≤ c2 * cfg.cars_per_second :=
      Nat.mul_le_mul_right _ hle
    omega
  · unfold calculate_timer
    omega

/-- Witness for C4 at the default configuration with counts 3 ≤ 12. -/
theorem calculate_timer_spec_witness :
    calculate_timer defaultConfig 0 = defaultConfig.min_green_time ∧
    calculate_timer defaultConfig 3 ≤ calculate_timer defaultConfig 12 := by
  have h := calculate_timer_spec defaultConfig 3 12 (by decide)
  exact ⟨h.2.1, h.2.2.1 (by decide)⟩

/-! ### C2: exactly one green, next-approach coloring -/

/-- Helper for the adaptive UI: the active approach is the unique green
signal drawn by `draw_traffic_ui`. -/
theorem draw_ui_color_green_iff (a nx d : Dir) :
    draw_ui_color a nx d = Color.green ↔ d = a := by
  unfold draw_ui_color
  by_cases h1 : d = a
  · simp [h1]
  · by_cases h2 : d = nx <;> simp [h1, h2]

/-- C2: during every rendered second of every phase, exactly one approach
is green — the active one, `directions[i]`; the approach at
`directions[(i+1) % 4]` is yellow "NEXT" in a normal phase but red "NEXT"
in an emergency phase, carrying the same countdown as the active
approach; every other approach is red "STOP" with no countdown. The
adaptive UI (`draw_traffic_ui`) likewise colors exactly the active
approach green. -/
theorem phase_display_spec (i : Fin 4) (r : Nat) (d : Dir) :
    ((normalLight i.val r d).color = Color.green ↔
      d = directions.getD i.val Dir.East) ∧
    ((emergencyLight i.val r d).color = Color.green ↔
      d = directions.getD i.val Dir.East) ∧
    (d = directions.getD i.val Dir.East →
      normalLight i.val r d = ⟨Color.green, "GO", some r⟩ ∧
      emergencyLight i.val r d = ⟨Color.green, "EMERGENCY GREEN", some r⟩) ∧
    (d = nextDir i.val →
      normalLight i.val r d = ⟨Color.yellow, "NEXT", some r⟩ ∧
      emergencyLight i.val r d = ⟨Color.red, "NEXT", some r⟩) ∧
    (d ≠ directions.getD i.val Dir.East → d ≠ nextDir i.val →
      normalLight i.val r d = ⟨Color.red, "STOP", none⟩ ∧
      emergencyLight i.val r d = ⟨Color.red, "STOP", none⟩) ∧
    (∀ a nx : Dir, draw_ui_color a nx d = Color.green ↔ d = a) := by
  refine ⟨?_, ?_, ?_, ?_, ?_, fun a nx => draw_ui_color_green_iff a nx d⟩ <;>
    fin_cases i <;> cases d <;>
      simp [normalLight, emergencyLight, nextDir, directions]

/-- Witness for C2: in the phase with active index 1 (South), the West
approach — next in rotation — is yellow "NEXT" in a normal phase and red
"NEXT" in an emergency phase, with the active countdown 7. -/
theorem phase_display_spec_witness :
    normalLight (1 : Fin 4).val 7 Dir.West =
      ⟨Color.yellow, "NEXT", some 7⟩ ∧
    emergencyLight (1 : Fin 4).val 7 Dir.West =
      ⟨Color.red, "NEXT", some 7⟩ :=
  (phase_display_spec 1 7 Dir.West).2.2.2.1 (by decide)

/-! ### C1: emergency tie-break selects the first approach in rotation -/

/-- A sweep step on a suppressed approach, an unreadable image, or a
negative detection falls through to the next approach. -/
theorem sweepLoop_skip (cd : CooldownState) (perc : Dir → Option Bool)
    (i : Nat) (d : Dir) (rest : List (Nat × Dir))
    (h : ¬ (cd d = 0 ∧ perc d = some true)) :
    sweepLoop cd perc ((i, d) :: rest) = sweepLoop cd perc rest := by
  rcases Nat.eq_zero_or_pos (cd d) with hc | hc
  · cases hp : perc d with
    | none => simp [sweepLoop, hc, hp]
    | some b =>
        cases b with
        | false => simp [sweepLoop, hc, hp]
        | true => exact absurd ⟨hc, hp⟩ h
  · simp [sweepLoop, hc]

/-- A sweep step on a non-suppressed approach with a positive detection
triggers the cooldown, renders the emergency phase, and stops the sweep. -/
theorem sweepLoop_hit (cd : CooldownState) (perc : Dir → Option Bool)
    (i : Nat) (d : Dir) (rest : List (Nat × Dir))
    (h1 : cd d = 0) (h2 : perc d = some true) :
    sweepLoop cd perc ((i, d) :: rest) =
      (trigger cd d cooldown_duration, true, emergencyPhase i) := by
  simp [sweepLoop, h1, h2]

/-- C1: when at least one non-suppressed approach reports an emergency
during a sweep, the sweep selects exactly the first such approach in
rotation order — the least rotation index `m` whose approach is not in
cooldown and reports an emergency — runs the emergency phase for that
approach alone, triggers only that approach's cooldown, and terminates
without processing the remaining approaches of the sweep. -/
theorem emergency_first_in_rotation (cd : CooldownState)
    (perc : Dir → Option Bool) (j : Nat) (hj : j < 4)
    (hrep : cd (directions.getD j Dir.East) = 0 ∧
      perc (directions.getD j Dir.East) = some true) :
    ∃ m, m < 4 ∧
      cd (directions.getD m Dir.East) = 0 ∧
      perc (directions.getD m Dir.East) = some true ∧
      (∀ k, k < m → ¬ (cd (directions.getD k Dir.East) = 0 ∧
        perc (directions.getD k Dir.East) = some true)) ∧
      sweepLoop cd perc directions.enum =
        (trigger cd (directions.getD m Dir.East) cooldown_duration, true,
          emergencyPhase m) := by
  have henum : directions.enum =
      [(0, Dir.East), (1, Dir.South), (2, Dir.West), (3, Dir.North)] := rfl
  by_cases h0 : cd Dir.East = 0 ∧ perc Dir.East = some true
  · refine ⟨0, by omega, h0.1, h0.2, by omega, ?_⟩
    rw [henum]
    exact sweepLoop_hit cd perc 0 Dir.East _ h0.1 h0.2
  · by_cases h1 : cd Dir.South = 0 ∧ perc Dir.South = some true
    · refine ⟨1, by omega, h1.1, h1.2, ?_, ?_⟩
      · intro k hk
        interval_cases k
        exact h0
      · rw [henum, sweepLoop_skip cd perc 0 Dir.East _ h0]
        exact sweepLoop_hit cd perc 1 Dir.South _ h1.1 h1.2
    · by_cases h2 : cd Dir.West = 0 ∧ perc Dir.West = some true
      · refine ⟨2, by omega, h2.1, h2.2, ?_, ?_⟩
        · intro k hk
          interval_cases k
          · exact h0
          · exact h1
        · rw [henum, sweepLoop_skip cd perc 0 Dir.East _ h0,
            sweepLoop_skip cd perc 1 Dir.South _ h1]
          exact sweepLoop_hit cd perc 2 Dir.West _ h2.1 h2.2
      · by_cases h3 : cd Dir.North = 0 ∧ perc Dir.North = some true
        · refine ⟨3, by omega, h3.1, h3.2, ?_, ?_⟩
          · intro k hk
            interval_cases k
            · exact h0
            · exact h1
            · exact h2
          · rw [henum, sweepLoop_skip cd perc 0 Dir.East _ h0,
              sweepLoop_skip cd perc 1 Dir.South _ h1,
              sweepLoop_skip cd perc 2 Dir.West _ h2]
            exact sweepLoop_hit cd perc 3 Dir.North _ h3.1 h3.2
        · exfalso
          interval_cases j
          · exact h0 hrep
          · exact h1 hrep
          · exact h2 hrep
          · exact h3 hrep

/-- Witness for C1, mirroring the spec's tie-break example: emergencies
reported simultaneously at rotation indices 0, 2 and 3 (East, West,
North) with no cooldowns; the selected approach exists and is the least
reporting index. -/
theorem emergency_first_in_rotation_witness :
    ∃ m, m < 4 ∧
      (fun _ : Dir => 0) (directions.getD m Dir.East) = 0 ∧
      (fun d => if d = Dir.South then some false else some true)
        (directions.getD m Dir.East) = some true ∧
      (∀ k, k < m → ¬ ((fun _ : Dir => 0) (directions.getD k Dir.East) = 0 ∧
        (fun d => if d = Dir.South then some false else some true)
          (directions.getD k Dir.East) = some true)) ∧
      sweepLoop (fun _ => 0)
          (fun d => if d = Dir.South then some false else some true)
          directions.enum =
        (trigger (fun _ => 0) (directions.getD m Dir.East) cooldown_duration,
          true, emergencyPhase m) :=
  emergency_first_in_rotation (fun _ => 0)
    (fun d => if d = Dir.South then some false else some true)
    2 (by omega) ⟨rfl, by decide⟩

/-! ### C5: one cooldown decrement per outer cycle, before the sweep -/

/-- When every approach is suppressed the sweep skips all of them. -/
theorem sweepLoop_all_suppressed (cd : CooldownState)
    (perc : Dir → Option Bool) (h : ∀ d, 0 < cd d) :
    ∀ l, sweepLoop cd perc l = (cd, false, []) := by
  intro l
  induction l with
  | nil => rfl
  | cons p rest ih =>
      obtain ⟨i, d⟩ := p
      rw [sweepLoop_skip cd perc i d rest ?_, ih]
      rintro ⟨h0, -⟩
      have := h d
      omega

/-- When no approach reports an emergency the sweep changes nothing. -/
theorem sweepLoop_no_report (cd : CooldownState) (perc : Dir → Option Bool)
    (h : ∀ d, perc d ≠ some true) :
    ∀ l, sweepLoop cd perc l = (cd, false, []) := by
  intro l
  induction l with
  | nil => rfl
  | cons p rest ih =>
      obtain ⟨i, d⟩ := p
      rw [sweepLoop_skip cd perc i d rest ?_, ih]
      rintro ⟨-, hp⟩
      exact h d hp

/-- The sweep leaves the cooldown state unchanged unless it detects an
ambulance, in which case it adds exactly one `trigger`. -/
theorem sweepLoop_cooldown_cases (cd : CooldownState)
    (perc : Dir → Option Bool) :
    ∀ l, (sweepLoop cd perc l).1 = cd ∨
      ∃ a, (sweepLoop cd perc l).1 = trigger cd a cooldown_duration := by
  intro l
  induction l with
  | nil => exact Or.inl rfl
  | cons p rest ih =>
      obtain ⟨i, d⟩ := p
      by_cases hd : cd d = 0 ∧ perc d = some true
      · rw [sweepLoop_hit cd perc i d rest hd.1 hd.2]
        exact Or.inr ⟨d, rfl⟩
      · rw [sweepLoop_skip cd perc i d rest hd]
        exact ih

/-- C5: the outer cycle applies exactly one cooldown decrement —
every approach's remaining cooldown drops by exactly 1 (floored at 0),
followed at most by the single `trigger` of a detected emergency — no
matter how many seconds the cycle renders. Concretely: starting from a
cooldown of 2 on East with no emergencies, the cycle renders 33 seconds
(three 11-second phases) yet East's cooldown drops only from 2 to 1; and
the decrement happens before the sweep reads the value — an approach with
cooldown 1 at cycle start reporting an emergency is selected by that very
cycle's sweep. -/
theorem cooldown_tick_once_per_cycle (cd : CooldownState)
    (perc : Dir → Option Bool) :
    (((outerCycle cd perc).1 = fun d => cd d - 1) ∨
      ∃ a, (outerCycle cd perc).1 =
        trigger (fun d => cd d - 1) a cooldown_duration) ∧
    (outerCycle (fun d => if d = Dir.East then 2 else 0)
      (fun _ => some false)).2.length = 33 ∧
    (outerCycle (fun d => if d = Dir.East then 2 else 0)
      (fun _ => some false)).1 Dir.East = 1 ∧
    (outerCycle (fun d => if d = Dir.East then 1 else 0)
      (fun d => if d = Dir.East then some true else some false)).2 =
      emergencyPhase 0 := by
  refine ⟨?_, by rfl, by rfl, by rfl⟩
  have htick : tickCooldowns cd = fun d => cd d - 1 :=
    funext (fun d => tickCooldowns_apply cd d)
  have hcases := sweepLoop_cooldown_cases (tickCooldowns cd) perc
    directions.enum
  have houter : (outerCycle cd perc).1 =
      (sweepLoop (tickCooldowns cd) perc directions.enum).1 := by
    unfold outerCycle
    by_cases hres : (sweepLoop (tickCooldowns cd) perc directions.enum).2.1 <;>
      simp [hres]
  rcases hcases with hsame | ⟨a, ha⟩
  · exact Or.inl (by rw [houter, hsame, htick])
  · exact Or.inr ⟨a, by rw [houter, ha, htick]⟩

/-! ### C7: all approaches suppressed — zero phases, no stall -/

/-- When every approach is suppressed the normal rotation renders
nothing. -/
theorem normalLoop_all_suppressed (cd : CooldownState) (h : ∀ d, 0 < cd d) :
    ∀ l, normalLoop cd l = [] := by
  intro l
  induction l with
  | nil => rfl
  | cons p rest ih =>
      obtain ⟨i, d⟩ := p
      have hd := h d
      simp [normalLoop, hd, ih]

/-- C7: if every approach is suppressed when the normal-rotation step
starts, the rotation performs zero phases (renders no seconds); and a
whole outer cycle entered with every cooldown at least 2 renders no
seconds at all and hands control back to the next cycle's sweep — the
rotation is a single bounded pass, never a spin. -/
theorem all_suppressed_no_phases (cd : CooldownState)
    (perc : Dir → Option Bool) (h : ∀ d, 0 < cd d) :
    normalLoop cd directions.enum = [] ∧
    (outerCycle (fun d => cd d + 1) perc).2 = [] := by
  constructor
  · exact normalLoop_all_suppressed cd h directions.enum
  · have hpos : ∀ d, 0 < tickCooldowns (fun d => cd d + 1) d := by
      intro d
      rw [tickCooldowns_apply]
      have := h d
      omega
    simp only [outerCycle]
    rw [sweepLoop_all_suppressed _ perc hpos directions.enum]
    simp [normalLoop_all_suppressed _ hpos directions.enum]

/-- Witness for C7: with every cooldown at 3 and every approach even
reporting an emergency, the rotation renders nothing. -/
theorem all_suppressed_no_phases_witness :
    normalLoop (fun _ => 3) directions.enum = [] ∧
    (outerCycle (fun d => (fun _ : Dir => 3) d + 1) (fun _ => some true)).2 =
      [] :=
  all_suppressed_no_phases (fun _ => 3) (fun _ => some true)
    (by intro d; exact Nat.succ_pos 2)

/-! ### C8: a perception failure is recovered locally -/

/-- Replacing one approach's failed perception by an explicit
"no emergency" answer changes nothing about the sweep. -/
theorem sweepLoop_failure_as_no_emergency (cd : CooldownState)
    (perc : Dir → Option Bool) (k : Dir) (hk : perc k = none) :
    ∀ l, sweepLoop cd perc l =
      sweepLoop cd (fun d => if d = k then some false else perc d) l := by
  intro l
  induction l with
  | nil => rfl
  | cons p rest ih =>
      obtain ⟨i, d⟩ := p
      by_cases hcd : cd d = 0
      · by_cases hdk : d = k
        · subst hdk
          rw [sweepLoop_skip cd perc i d rest (by simp [hk]),
            sweepLoop_skip cd _ i d rest (by simp), ih]
        · cases hp : perc d with
          | none =>
              rw [sweepLoop_skip cd perc i d rest (by simp [hp]),
                sweepLoop_skip cd _ i d rest (by simp [hdk, hp]), ih]
          | some b =>
              cases b with
              | false =>
                  rw [sweepLoop_skip cd perc i d rest (by simp [hp]),
                    sweepLoop_skip cd _ i d rest (by simp [hdk, hp]), ih]
              | true =>
                  rw [sweepLoop_hit cd perc i d rest hcd hp,
                    sweepLoop_hit cd _ i d rest hcd (by simp [hdk, hp])]
      · rw [sweepLoop_skip cd perc i d rest (by rintro ⟨h0, -⟩; exact hcd h0),
          sweepLoop_skip cd _ i d rest (by rintro ⟨h0, -⟩; exact hcd h0), ih]

/-- C8: a perception failure on a single approach is recovered locally.
In the emergency scheduler the sweep behaves exactly as if the failed
approach had answered "no emergency": the remaining approaches are
processed unchanged and the cycle completes. In the adaptive scheduler a
failed `count_cars` yields count 0, so the approach still receives the
minimum green time and the run continues. -/
theorem perception_failure_local (cd : CooldownState)
    (perc : Dir → Option Bool) (k : Dir) (hk : perc k = none)
    (cfg : TrafficConfig) (h : cfg.min_green_time ≤ cfg.max_green_time) :
    sweepLoop cd perc directions.enum =
      sweepLoop cd (fun d => if d = k then some false else perc d)
        directions.enum ∧
    count_cars none = 0 ∧
    calculate_timer cfg (count_cars none) = cfg.min_green_time := by
  refine ⟨sweepLoop_failure_as_no_emergency cd perc k hk directions.enum,
    rfl, ?_⟩
  simp [count_cars, calculate_timer, h]

/-- Witness for C8: East's image is unreadable while South reports an
emergency; the sweep result equals the one where East explicitly answers
"no emergency", and the failed adaptive count falls back to the minimum
green time of the default configuration. -/
theorem perception_failure_local_witness :
    sweepLoop (fun _ => 0)
        (fun d => if d = Dir.East then none
          else if d = Dir.South then some true else some false)
        directions.enum =
      sweepLoop (fun _ => 0)
        (fun d => if d = Dir.East then some false
          else (fun d => if d = Dir.East then none
            else if d = Dir.South then some true else some false) d)
        directions.enum ∧
    count_cars none = 0 ∧
    calculate_timer defaultConfig (count_cars none) =
      defaultConfig.min_green_time :=
  perception_failure_local (fun _ => 0)
    (fun d => if d = Dir.East then none
      else if d = Dir.South then some true else some false)
    Dir.East (by decide) defaultConfig (by decide)

/-! ### C9: the emergency call fires at most once per run -/

/-- Once the `accident_detected` flag is set the loop never changes
state again. -/
theorem accident_foldl_flag_set (l : List ℚ) (n : Nat) :
    l.foldl accidentStep (true, n) = (true, n) := by
  induction l with
  | nil => rfl
  | cons c rest ih =>
      rw [List.foldl_cons]
      have hstep : accidentStep (true, n) c = (true, n) := by
        unfold accidentStep
        split <;> rfl
      rw [hstep, ih]

/-- Frames that never exceed the threshold leave the state unchanged. -/
theorem accident_foldl_below (l : List ℚ) (st : Bool × Nat)
    (h : ∀ x ∈ l, ¬ (90 < x)) : l.foldl accidentStep st = st := by
  induction l with
  | nil => rfl
  | cons c rest ih =>
      rw [List.foldl_cons]
      have hstep : accidentStep st c = st := by
        unfold accidentStep
        rw [if_neg (h c (by simp))]
      rw [hstep]
      exact ih (fun x hx => h x (by simp [hx]))

/-- Along any run the call count grows by at most one. -/
theorem accident_foldl_le (l : List ℚ) :
    ∀ st : Bool × Nat, (l.foldl accidentStep st).2 ≤ st.2 + 1 := by
  induction l with
  | nil => intro st; simp
  | cons c rest ih =>
      intro st
      rw [List.foldl_cons]
      by_cases hc : (90 : ℚ) < c
      · by_cases hf : st.1 = true
        · have hstep : accidentStep st c = st := by
            simp [accidentStep, hc, hf]
          rw [hstep]
          exact ih st
        · have hstep : accidentStep st c = (true, st.2 + 1) := by
            simp [accidentStep, hc, hf]
          rw [hstep, accident_foldl_flag_set]
      · have hstep : accidentStep st c = st := by
          simp [accidentStep, hc]
        rw [hstep]
        exact ih st

/-- C9: over any sequence of frame confidences the emergency call
sequence is initiated at most once; while the confidence stays at or
below 90 no call is made; and on the first frame exceeding 90 exactly one
call is initiated, after which every later frame — above the threshold or
not — initiates none. -/
theorem emergency_call_at_most_once (confs l1 l2 : List ℚ) (c : ℚ)
    (h1 : ∀ x ∈ l1, ¬ (90 < x)) (h2 : 90 < c) :
    (runAccidentDetection confs).2 ≤ 1 ∧
    runAccidentDetection l1 = (false, 0) ∧
    runAccidentDetection (l1 ++ c :: l2) = (true, 1) := by
  refine ⟨accident_foldl_le confs (false, 0), accident_foldl_below l1 _ h1, ?_⟩
  unfold runAccidentDetection
  rw [List.foldl_append, accident_foldl_below l1 _ h1, List.foldl_cons]
  have hstep : accidentStep (false, 0) c = (true, 1) := by
    simp [accidentStep, h2]
  rw [hstep, accident_foldl_flag_set]

/-- Witness for C9: confidences 50, 90, then 95 (first exceedance), then
99 and 100; exactly one call is initiated over the whole run. -/
theorem emergency_call_at_most_once_witness :
    (runAccidentDetection [95, 95]).2 ≤ 1 ∧
    runAccidentDetection [50, 90] = (false, 0) ∧
    runAccidentDetection ([50, 90] ++ (95 : ℚ) :: [99, 100]) = (true, 1) :=
  emergency_call_at_most_once [95, 95] [50, 90] [99, 100] 95
    (by intro x hx; simp only [List.mem_cons, List.not_mem_nil, or_false] at hx
        rcases hx with rfl | rfl <;> norm_num)
    (by norm_num)

/-! ### C10: adaptive timers are computed once and reused every cycle -/

/-- `getD` of a map over `List.range` at an in-range index. -/
theorem getD_map_range {α : Type} (f : Nat → α) (n i : Nat) (d : α)
    (h : i < n) : ((List.range n).map f).getD i d = f i := by
  rw [List.getD_eq_getElem _ _ (by simpa using h)]
  simp

/-- C10: the adaptive run consists of exactly `max_cycles` cycles; all
cycles are identical — the green durations are the `timers` computed from
the initial per-approach counts, never recomputed — and phase `i` of any
cycle activates `order[i]` for `calculate_timer` of that approach's
initial count, with `order[(i+1) % 4]` next. -/
theorem timers_computed_once (cfg : TrafficConfig)
    (counts : Dir → Option Nat) (c1 c2 : Nat)
    (h1 : c1 < cfg.max_cycles) (h2 : c2 < cfg.max_cycles) :
    (process_intersection cfg counts).length = cfg.max_cycles ∧
    (process_intersection cfg counts).getD c1 [] =
      (process_intersection cfg counts).getD c2 [] ∧
    ∀ i, i < 4 →
      ((process_intersection cfg counts).getD c1 []).getD i
          ⟨Dir.North, Dir.North, 0⟩ =
        { active := order.getD i Dir.North
          next_adjacent := order.getD ((i + 1) % 4) Dir.North
          green_time :=
            calculate_timer cfg (count_cars (counts (order.getD i Dir.North))) } := by
  unfold process_intersection
  refine ⟨by simp, ?_, ?_⟩
  · rw [getD_map_range _ _ _ _ h1, getD_map_range _ _ _ _ h2]
  · intro i hi
    rw [getD_map_range _ _ _ _ h1]
    unfold cycleSchedule
    rw [getD_map_range _ _ _ _ hi]
    rfl

/-- Witness for C10: with 12 vehicles sensed on every approach, phase 1 of
the first of the 5 default cycles is East for 30 seconds (clamped), with
South next. -/
theorem timers_computed_once_witness :
    ((process_intersection defaultConfig (fun _ => some 12)).getD 0 []).getD 1
        ⟨Dir.North, Dir.North, 0⟩ =
      { active := Dir.East, next_adjacent := Dir.South, green_time := 30 } :=
  (timers_computed_once defaultConfig (fun _ => some 12) 0 4 (by decide)
    (by decide)).2.2 1 (by decide)

/-! ### C6: countdown ranges of the two variants -/

/-- Counterexample to C6 as stated: the adaptive variant's green-phase
countdown (`range(green_time, 0, -1)`, light.py line 156) with duration
10 renders 10 seconds — not 10 + 1 — and never shows the value 0, so not
every phase counts from the duration down to 0 inclusive with D + 1 tick
events. -/
theorem adaptive_countdown_stops_at_one :
    (adaptiveCountdown 10).length = 10 ∧
    ¬ (adaptiveCountdown 10).length = 10 + 1 ∧
    (0 : Nat) ∉ adaptiveCountdown 10 ∧
    (1 : Nat) ∈ adaptiveCountdown 10 := by decide

/-- C6 (amended): in the ambulance variant every phase — normal or
emergency — counts from D down to 0 inclusive, emitting D + 1 tick
events whose k-th value is D - k; in the adaptive variant the phase
counts from D down to 1, emitting D tick events whose k-th value is
D - k, and 0 is never rendered. -/
theorem countdown_spec_amended (D : Nat) :
    emergencyCountdownList D = (List.range (D + 1)).map (fun k => D - k) ∧
    (emergencyCountdownList D).length = D + 1 ∧
    0 ∈ emergencyCountdownList D ∧
    adaptiveCountdown D = (List.range D).map (fun k => D - k) ∧
    (adaptiveCountdown D).length = D ∧
    (0 : Nat) ∉ adaptiveCountdown D := by
  refine ⟨?_, by simp [emergencyCountdownList], ?_, ?_,
    by simp [adaptiveCountdown], ?_⟩
  · rw [emergencyCountdownList, List.range_eq_range', List.reverse_range',
      ← List.range_eq_range']
    congr 1
    funext k
    omega
  · simp [emergencyCountdownList]
  · rw [adaptiveCountdown, List.reverse_range']
    congr 1
    funext k
    omega
  · simp only [adaptiveCountdown, List.mem_reverse, List.mem_range']
    omega
